import Mathlib

/-!
Verification of the Project Beacon hybrid router core.

The definitions below are a shallow embedding of the Python source of the
hybrid router (`Website/hybrid_router/`):

* `models/provider.py` and `models/requests.py` give the data model;
* `core/router.py` gives provider selection (`select_provider`), the Modal
  execution attempt loop (`_run_modal_inference`) and the metrics update in
  `run_inference`;
* `core/region_queue.py` gives the queue manager (`enqueue_job`,
  `process_queue`);
* `api/inference.py` gives queued admission (`inference_queued`) and job
  status lookup (`get_inference_status`).

Python floats are embedded as exact rationals, timestamps as abstract `Nat`
ticks, and the outcome of each outbound HTTP call as explicit input data.
-/

namespace Beacon

/-! ## Data model -/

/-- Embeds `ProviderType` from `models/provider.py` (the RunPod member is
commented out in the source). -/
inductive ProviderType
  | golem
  | modal
deriving DecidableEq

/-- Embeds the `Provider` dataclass from `models/provider.py`, with the same
defaults (`healthy = True`, `avg_latency = 0`, `success_rate = 1.0`). -/
structure Provider where
  name : String
  type : ProviderType
  endpoint : String
  region : String
  cost_per_second : ℚ
  max_concurrent : Int
  healthy : Bool := true
  last_health_check : ℚ := 0
  avg_latency : ℚ := 0
  success_rate : ℚ := 1
deriving DecidableEq

/-- Embeds the `InferenceRequest` pydantic model from `models/requests.py`
with its defaults. `region_preference` is optional. -/
structure InferenceRequest where
  model : String
  prompt : String
  temperature : ℚ := 1/10
  max_tokens : Nat := 500
  region_preference : Option String := none
  cost_priority : Bool := true
deriving DecidableEq

/-! ## Provider selection (`HybridRouter.select_provider`, router.py 234-298) -/

/-- The sort key used at router.py 276 and 279: `(cost_per_second, avg_latency)`
when `cost_priority`, else `(avg_latency, cost_per_second)`. -/
def rankKey (cost_priority : Bool) (p : Provider) : ℚ × ℚ :=
  if cost_priority then (p.cost_per_second, p.avg_latency)
  else (p.avg_latency, p.cost_per_second)

/-- Lexicographic order on sort keys, as Python compares tuples. -/
def pairLe (a b : ℚ × ℚ) : Prop :=
  a.1 < b.1 ∨ (a.1 = b.1 ∧ a.2 ≤ b.2)

instance : DecidableRel pairLe := fun a b => by
  unfold pairLe; exact inferInstance

/-- The ranking relation `list.sort(key=...)` sorts by (stable, ascending). -/
def rankRel (cost_priority : Bool) (p q : Provider) : Prop :=
  pairLe (rankKey cost_priority p) (rankKey cost_priority q)

instance (cp : Bool) : DecidableRel (rankRel cp) := fun _ _ => by
  unfold rankRel; exact inferInstance

theorem pairLe_refl (a : ℚ × ℚ) : pairLe a a := Or.inr ⟨rfl, le_refl _⟩

theorem rankRel_refl (cp : Bool) (p : Provider) : rankRel cp p p := pairLe_refl _

theorem pairLe_total (a b : ℚ × ℚ) : pairLe a b ∨ pairLe b a := by
  rcases lt_trichotomy a.1 b.1 with h | h | h
  · exact Or.inl (Or.inl h)
  · rcases le_total a.2 b.2 with h2 | h2
    · exact Or.inl (Or.inr ⟨h, h2⟩)
    · exact Or.inr (Or.inr ⟨h.symm, h2⟩)
  · exact Or.inr (Or.inl h)

theorem pairLe_trans {a b c : ℚ × ℚ} (h1 : pairLe a b) (h2 : pairLe b c) : pairLe a c := by
  rcases h1 with h1 | ⟨h1e, h1le⟩
  · rcases h2 with h2 | ⟨h2e, _⟩
    · exact Or.inl (lt_trans h1 h2)
    · exact Or.inl (h2e ▸ h1)
  · rcases h2 with h2 | ⟨h2e, h2le⟩
    · exact Or.inl (h1e ▸ h2)
    · exact Or.inr ⟨h1e.trans h2e, le_trans h1le h2le⟩

instance (cp : Bool) : IsTotal Provider (rankRel cp) :=
  ⟨fun _ _ => pairLe_total _ _⟩

instance (cp : Bool) : IsTrans Provider (rankRel cp) :=
  ⟨fun _ _ _ h1 h2 => pairLe_trans h1 h2⟩

/-- Embeds router.py 273-298: stable sort of the candidate list by the chosen
key, then return the first entry with `max_concurrent > 0`, falling back to
the head of the ranked list. Python `list.sort` is a stable ascending sort,
matched here by `List.insertionSort` with the non-strict relation. -/
def rankProviders (cost_priority : Bool) (candidates : List Provider) : Option Provider :=
  match (List.insertionSort (rankRel cost_priority) candidates).find?
      (fun p => decide (0 < p.max_concurrent)) with
  | some p => some p
  | none => (List.insertionSort (rankRel cost_priority) candidates).head?

/-- Embeds `HybridRouter.select_provider` (router.py 234-298).  The region
branch reproduces Python truthiness: `if request.region_preference:` is
false both for `None` and for the empty string. -/
def select_provider (providers : List Provider) (request : InferenceRequest) :
    Option Provider :=
  if (providers.filter (fun p => p.healthy)).isEmpty then none
  else
    match request.region_preference with
    | some rp =>
        if rp = "" then
          rankProviders request.cost_priority (providers.filter (fun p => p.healthy))
        else
          if ((providers.filter (fun p => p.healthy)).filter
              (fun p => p.region == rp)).isEmpty then none
          else
            rankProviders request.cost_priority
              ((providers.filter (fun p => p.healthy)).filter (fun p => p.region == rp))
    | none => rankProviders request.cost_priority (providers.filter (fun p => p.healthy))

/-! ## Concrete fixtures for the selection theorems -/

/-- A healthy US provider, as built in `setup_providers` (router.py 86-94). -/
def golemUS : Provider :=
  { name := "golem-1", type := .golem, endpoint := "http://g1"
    region := "us-east", cost_per_second := 1/10000, max_concurrent := 5 }

/-- A request whose `region_preference` is the empty string: the field is set,
but Python truthiness treats it as absent. -/
def reqEmptyRegion : InferenceRequest :=
  { model := "llama3.2-1b", prompt := "hi", region_preference := some "" }

/-- C1 counterexample: with `region_preference = some ""` (a set preference)
and no healthy provider whose region is `""`, `select_provider` still returns
the healthy `us-east` provider, because `if request.region_preference:` treats
the empty string like an absent preference (router.py 255). -/
theorem c1_strict_region_lock_counterexample :
    reqEmptyRegion.region_preference = some "" ∧
    (∀ p ∈ [golemUS], p.healthy = true → p.region ≠ "") ∧
    select_provider [golemUS] reqEmptyRegion = some golemUS ∧
    golemUS.region ≠ "" := by
  refine ⟨rfl, ?_, ?_, by decide⟩
  · intro p hp _
    simp only [List.mem_singleton] at hp
    subst hp
    decide
  · rfl

/-- C1 amended: if `region_preference` is set to a non-empty string and no
healthy provider has exactly that region, `select_provider` returns `None`
regardless of healthy providers elsewhere. -/
theorem c1_strict_region_lock_amended (providers : List Provider)
    (request : InferenceRequest) (r : String)
    (hr : request.region_preference = some r) (hne : r ≠ "")
    (hno : ∀ p ∈ providers, p.healthy = true → p.region ≠ r) :
    select_provider providers request = none := by
  unfold select_provider
  by_cases hemp : (providers.filter (fun p => p.healthy)).isEmpty
  · simp [hemp]
  · simp only [hemp, if_false, hr]
    rw [if_neg hne]
    have hfil : (providers.filter (fun p => p.healthy)).filter
        (fun p => p.region == r) = [] := by
      rw [List.filter_eq_nil_iff]
      intro p hp
      have hmem := List.mem_filter.mp hp
      have hreg := hno p hmem.1 (by simpa using hmem.2)
      simpa using hreg
    simp [hfil]

/-- Witness for the C1 amended theorem at a concrete input: a request locked
to `eu-west` against a registry with only a healthy `us-east` provider. -/
theorem c1_strict_region_lock_witness :
    select_provider [golemUS]
      { model := "m", prompt := "p", region_preference := some "eu-west" } = none := by
  exact c1_strict_region_lock_amended [golemUS] _ "eu-west" rfl (by decide)
    (by intro p hp _; simp only [List.mem_singleton] at hp; subst hp; decide)

/-! ## Ranking properties (claim C9) -/

/-- In a sorted list, an element found by `find?` is minimal among the
elements satisfying the predicate. -/
theorem find?_sorted_min {R : Provider → Provider → Prop} (hrefl : ∀ a, R a a)
    {pred : Provider → Bool} {l : List Provider} {x : Provider}
    (hs : l.Sorted R) (h : l.find? pred = some x) :
    ∀ y ∈ l, pred y = true → R x y := by
  induction l with
  | nil => simp [List.find?] at h
  | cons a t ih =>
    by_cases hpa : pred a = true
    · rw [List.find?_cons_of_pos _ hpa] at h
      cases h
      intro y hy _
      rcases List.mem_cons.mp hy with rfl | hyt
      · exact hrefl _
      · exact List.rel_of_sorted_cons hs _ hyt
    · rw [List.find?_cons_of_neg _ hpa] at h
      intro y hy hpy
      rcases List.mem_cons.mp hy with rfl | hyt
      · exact absurd hpy hpa
      · exact ih hs.of_cons h y hyt hpy

/-- The head of a sorted list is minimal. -/
theorem sorted_head_min {R : Provider → Provider → Prop} (hrefl : ∀ a, R a a)
    {l : List Provider} {x : Provider}
    (hs : l.Sorted R) (h : l.head? = some x) : ∀ y ∈ l, R x y := by
  cases l with
  | nil => simp at h
  | cons a t =>
    simp only [List.head?_cons, Option.some.injEq] at h
    subst h
    intro y hy
    rcases List.mem_cons.mp hy with rfl | hyt
    · exact hrefl _
    · exact List.rel_of_sorted_cons hs _ hyt

/-- `rankProviders` on a non-empty candidate list returns a candidate that has
capacity and a minimal sort key among capacity candidates, or, if no candidate
has capacity, a candidate with minimal sort key overall. -/
theorem rankProviders_spec (cp : Bool) (l : List Provider) (hl : l ≠ []) :
    ∃ p, rankProviders cp l = some p ∧ p ∈ l ∧
      ((∃ q ∈ l, 0 < q.max_concurrent) →
        0 < p.max_concurrent ∧
        ∀ q ∈ l, 0 < q.max_concurrent → rankRel cp p q) ∧
      ((∀ q ∈ l, ¬ 0 < q.max_concurrent) → ∀ q ∈ l, rankRel cp p q) := by
  have hperm : List.Perm (List.insertionSort (rankRel cp) l) l :=
    List.perm_insertionSort _ _
  have hsorted : (List.insertionSort (rankRel cp) l).Sorted (rankRel cp) :=
    List.sorted_insertionSort _ _
  unfold rankProviders
  cases hfind : (List.insertionSort (rankRel cp) l).find?
      (fun p => decide (0 < p.max_concurrent)) with
  | some p =>
      refine ⟨p, rfl, hperm.mem_iff.mp (List.mem_of_find?_eq_some hfind), ?_, ?_⟩
      · intro _
        refine ⟨by simpa using List.find?_some hfind, ?_⟩
        intro q hq hqc
        exact find?_sorted_min (rankRel_refl cp) hsorted hfind q
          (hperm.mem_iff.mpr hq) (by simpa using hqc)
      · intro hnone
        exact absurd (by simpa using List.find?_some hfind)
          (hnone p (hperm.mem_iff.mp (List.mem_of_find?_eq_some hfind)))
  | none =>
      have hlen : (List.insertionSort (rankRel cp) l).length = l.length := hperm.length_eq
      cases hrk : List.insertionSort (rankRel cp) l with
      | nil =>
          exfalso
          apply hl
          rw [hrk] at hlen
          exact List.length_eq_zero.mp hlen.symm
      | cons a t =>
          refine ⟨a, rfl, ?_, ?_, ?_⟩
          · exact hperm.mem_iff.mp (by rw [hrk]; exact List.mem_cons_self a t)
          · intro ⟨q, hq, hqc⟩
            exfalso
            have := List.find?_eq_none.mp hfind q (hperm.mem_iff.mpr hq)
            simp at this
            exact absurd hqc (by simpa using this)
          · intro _
            intro q hq
            refine sorted_head_min (rankRel_refl cp) hsorted ?_ q (hperm.mem_iff.mpr hq)
            rw [hrk]; rfl

/-- The candidate set that router.py 238-271 ranks: healthy providers,
narrowed to the requested region when `region_preference` is truthy. -/
def routeCandidates (providers : List Provider) (request : InferenceRequest) :
    List Provider :=
  match request.region_preference with
  | some rp =>
      if rp = "" then providers.filter (fun p => p.healthy)
      else (providers.filter (fun p => p.healthy)).filter (fun p => p.region == rp)
  | none => providers.filter (fun p => p.healthy)

/-- C9 amended: for a registry snapshot whose candidate set (healthy and,
when a non-empty region is requested, region-matching) is non-empty,
`select_provider` returns a candidate with `max_concurrent > 0` of minimal
`(cost_per_second, avg_latency)` key when `cost_priority` (resp.
`(avg_latency, cost_per_second)` otherwise), and when no candidate has
capacity it returns a candidate of minimal key regardless. -/
theorem c9_selection_determinism_amended (providers : List Provider)
    (request : InferenceRequest)
    (hrp : request.region_preference = none ∨
      ∃ r, request.region_preference = some r ∧ r ≠ "")
    (hne : routeCandidates providers request ≠ []) :
    ∃ p, select_provider providers request = some p ∧
      p ∈ routeCandidates providers request ∧
      ((∃ q ∈ routeCandidates providers request, 0 < q.max_concurrent) →
        0 < p.max_concurrent ∧
        ∀ q ∈ routeCandidates providers request, 0 < q.max_concurrent →
          pairLe (rankKey request.cost_priority p) (rankKey request.cost_priority q)) ∧
      ((∀ q ∈ routeCandidates providers request, ¬ 0 < q.max_concurrent) →
        ∀ q ∈ routeCandidates providers request,
          pairLe (rankKey request.cost_priority p) (rankKey request.cost_priority q)) := by
  have hsel : select_provider providers request =
      rankProviders request.cost_priority (routeCandidates providers request) := by
    rcases hrp with hnone | ⟨r, hr, hrne⟩
    · have hh : ¬ (providers.filter (fun p => p.healthy)).isEmpty = true := by
        intro hemp
        apply hne
        simp only [routeCandidates, hnone]
        exact List.isEmpty_iff.mp hemp
      simp only [select_provider, routeCandidates, hnone]
      rw [if_neg hh]
    · have hreg : ¬ ((providers.filter (fun p => p.healthy)).filter
          (fun p => p.region == r)).isEmpty = true := by
        intro hemp
        apply hne
        simp only [routeCandidates, hr, if_neg hrne]
        exact List.isEmpty_iff.mp hemp
      have hh : ¬ (providers.filter (fun p => p.healthy)).isEmpty = true := by
        intro hemp
        apply hreg
        rw [List.isEmpty_iff.mp hemp]
        rfl
      simp only [select_provider, routeCandidates, hr]
      show (if (providers.filter (fun p => p.healthy)).isEmpty = true then none
          else if r = "" then
            rankProviders request.cost_priority (providers.filter (fun p => p.healthy))
          else if ((providers.filter (fun p => p.healthy)).filter
              (fun p => p.region == r)).isEmpty = true then none
          else
            rankProviders request.cost_priority
              ((providers.filter (fun p => p.healthy)).filter (fun p => p.region == r)))
        = rankProviders request.cost_priority
            (if r = "" then providers.filter (fun p => p.healthy)
             else (providers.filter (fun p => p.healthy)).filter (fun p => p.region == r))
      rw [if_neg hh, if_neg hrne, if_neg hrne, if_neg hreg]
  rw [hsel]
  exact rankProviders_spec request.cost_priority _ hne

/-- A healthy provider whose region is the empty string. -/
def provBlankRegion : Provider :=
  { name := "prov-blank", type := .golem, endpoint := "e1", region := ""
    cost_per_second := 5, max_concurrent := 5 }

/-- A cheaper healthy provider in `us-east`. -/
def provUSCheap : Provider :=
  { name := "prov-us", type := .modal, endpoint := "e2", region := "us-east"
    cost_per_second := 1, max_concurrent := 5 }

/-- A cost-priority request with `region_preference` set to the empty string. -/
def reqBlankCost : InferenceRequest :=
  { model := "m", prompt := "p", region_preference := some "", cost_priority := true }

/-- C9 counterexample: the registry holds a healthy region-matching provider
(`provBlankRegion`, region `""`) for the set `region_preference = some ""`,
yet `select_provider` returns the cheaper provider of a different region,
because the truthiness test skips the region filter entirely. -/
theorem c9_selection_determinism_counterexample :
    reqBlankCost.cost_priority = true ∧
    reqBlankCost.region_preference = some "" ∧
    provBlankRegion.healthy = true ∧ provBlankRegion.region = "" ∧
    0 < provBlankRegion.max_concurrent ∧
    select_provider [provBlankRegion, provUSCheap] reqBlankCost = some provUSCheap ∧
    provUSCheap.region ≠ "" := by
  refine ⟨rfl, rfl, rfl, rfl, by decide, ?_, by decide⟩
  rfl

/-- Witness for the C9 amended theorem at a concrete input: between the two
healthy capacity providers, the cost-priority selection picks the cheaper
`provUSCheap`, whose key is minimal. -/
theorem c9_selection_determinism_witness :
    ∃ p, select_provider [provBlankRegion, provUSCheap]
        { model := "m", prompt := "p", region_preference := none,
          cost_priority := true } = some p ∧
      p ∈ routeCandidates [provBlankRegion, provUSCheap]
        { model := "m", prompt := "p", region_preference := none,
          cost_priority := true } ∧ 0 < p.max_concurrent := by
  obtain ⟨p, hsel, hmem, hcap, -⟩ :=
    c9_selection_determinism_amended [provBlankRegion, provUSCheap]
      { model := "m", prompt := "p", region_preference := none, cost_priority := true }
      (Or.inl rfl) (by decide)
  exact ⟨p, hsel, hmem, (hcap ⟨provUSCheap, by decide, by decide⟩).1⟩

/-! ## Metrics feedback loop (claim C10, router.py 336-341) -/

/-- Embeds the provider metrics update performed by `run_inference` after an
execution that returns without raising (router.py 340-341):
`avg_latency = avg_latency*0.9 + inference_time*0.1` and
`success_rate = success_rate*0.9 + (0.1 if success else 0.0)`. -/
def update_metrics (p : Provider) (inference_time : ℚ) (success : Bool) : Provider :=
  { p with
    avg_latency := p.avg_latency * (9/10) + inference_time * (1/10)
    success_rate := p.success_rate * (9/10) + (if success then 1/10 else 0) }

/-- The provider after `k` consecutive successful executions at latency `L`,
starting from `avg_latency = 0`. -/
def metrics_after (p : Provider) (latency : ℚ) : Nat → Provider
  | 0 => { p with avg_latency := 0 }
  | k + 1 => update_metrics (metrics_after p latency k) latency true

/-- Closed form of the latency EMA: after `k` steps at latency `L` from 0,
`avg_latency = L - L*(9/10)^k`. -/
theorem metrics_after_avg_latency (p : Provider) (L : ℚ) :
    ∀ k, (metrics_after p L k).avg_latency = L - L * (9/10) ^ k := by
  intro k
  induction k with
  | zero => simp [metrics_after]
  | succ k ih =>
      show (update_metrics (metrics_after p L k) L true).avg_latency = _
      rw [update_metrics]
      simp only [ih]
      ring

/-- C10: the metrics update is the stated EMA; one execution at latency `L`
from prior `avg_latency = 0` yields exactly `0.1 * L`; and `k` consecutive
successful executions at latency `L` drive `avg_latency` to `L` as `k → ∞`
(floats are modelled as exact rationals). -/
theorem c10_ema_convergence (p : Provider) (L e : ℚ) (s : Bool) :
    (update_metrics p e s).avg_latency = p.avg_latency * (9/10) + e * (1/10) ∧
    (update_metrics p e s).success_rate
      = p.success_rate * (9/10) + (if s then (1/10 : ℚ) else 0) ∧
    (metrics_after p L 1).avg_latency = (1/10) * L ∧
    (∀ k, (metrics_after p L k).avg_latency = L - L * (9/10) ^ k) ∧
    Filter.Tendsto (fun k => (((metrics_after p L k).avg_latency : ℚ) : ℝ))
      Filter.atTop (nhds (L : ℝ)) := by
  refine ⟨rfl, rfl, ?_, metrics_after_avg_latency p L, ?_⟩
  · rw [metrics_after_avg_latency p L 1]
    ring
  · have hfun : (fun k => (((metrics_after p L k).avg_latency : ℚ) : ℝ))
        = fun k => (L : ℝ) - (L : ℝ) * ((9/10 : ℝ)) ^ k := by
      funext k
      rw [metrics_after_avg_latency p L k]
      push_cast
      ring
    rw [hfun]
    have hpow : Filter.Tendsto (fun k : Nat => ((9/10 : ℝ)) ^ k) Filter.atTop (nhds 0) :=
      tendsto_pow_atTop_nhds_zero_of_lt_one (by norm_num) (by norm_num)
    have hmul : Filter.Tendsto (fun k : Nat => (L : ℝ) * ((9/10 : ℝ)) ^ k)
        Filter.atTop (nhds 0) := by
      simpa using hpow.const_mul (L : ℝ)
    have := (tendsto_const_nhds (x := (L : ℝ)) (f := Filter.atTop)).sub hmul
    simpa using this

/-! ## Region queue system (`core/region_queue.py`) -/

/-- Embeds the `QueuedJob` dataclass (region_queue.py 18-32) with its
defaults (`retry_count = 0`, `max_retries = 3`). Timestamps are abstract
`Nat` ticks. -/
structure QueuedJob where
  job_id : String
  model : String
  prompt : String
  temperature : ℚ := 1/10
  max_tokens : Nat := 500
  region : String
  queued_at : Nat := 0
  started_at : Option Nat := none
  completed_at : Option Nat := none
  retry_count : Nat := 0
  max_retries : Nat := 3
  last_error : Option String := none
deriving DecidableEq

/-- Embeds the mutable state of a `RegionQueue` (region_queue.py 45-56).
Queues are FIFO lists with the head at the front. -/
structure RegionQueueState where
  region : String
  queue : List QueuedJob := []
  retry_queue : List QueuedJob := []
  processing : Bool := false
  current_job : Option QueuedJob := none
  completed_count : Nat := 0
  failed_count : Nat := 0
deriving DecidableEq

/-- The three region keys of `RegionQueueManager.queues`
(region_queue.py 88-92). -/
inductive RegionKey
  | US
  | EU
  | ASIA
deriving DecidableEq

/-- Embeds `RegionQueueManager` state (region_queue.py 84-95): one queue per
region plus the cross-region global retry queue. -/
structure RegionQueueManager where
  us : RegionQueueState := { region := "US" }
  eu : RegionQueueState := { region := "EU" }
  asia : RegionQueueState := { region := "ASIA" }
  global_retry_queue : List QueuedJob := []
deriving DecidableEq

/-- Lookup `self.queues[region]`. -/
def RegionQueueManager.getQueue (mgr : RegionQueueManager) : RegionKey → RegionQueueState
  | .US => mgr.us
  | .EU => mgr.eu
  | .ASIA => mgr.asia

/-- Write back one region's queue state. -/
def RegionQueueManager.setQueue (mgr : RegionQueueManager) :
    RegionKey → RegionQueueState → RegionQueueManager
  | .US, q => { mgr with us := q }
  | .EU, q => { mgr with eu := q }
  | .ASIA, q => { mgr with asia := q }

/-- ASCII upper-casing of one character, as Python `str.upper` acts on the
ASCII region strings used by the router. -/
def pyUpperChar (c : Char) : Char :=
  if c.isLower then Char.ofNat (c.toNat - 32) else c

/-- Embeds Python `str.upper()` for the ASCII strings used as regions. -/
def pyUpper (s : String) : String := String.mk (s.data.map pyUpperChar)

/-- The region-key membership test `region in self.queues`. -/
def regionKeyOf (region : String) : Option RegionKey :=
  if region = "US" then some .US
  else if region = "EU" then some .EU
  else if region = "ASIA" then some .ASIA
  else none

/-- Embeds `RegionQueueManager.enqueue_job` (region_queue.py 97-103):
upper-case the job's region, raise `ValueError` when it is not a queue key,
else append to that region's regular queue. -/
def enqueue_job (mgr : RegionQueueManager) (job : QueuedJob) :
    Except String RegionQueueManager :=
  match regionKeyOf (pyUpper job.region) with
  | none => .error ("Unknown region: " ++ (pyUpper job.region))
  | some k =>
      .ok (mgr.setQueue k
        { mgr.getQueue k with queue := (mgr.getQueue k).queue ++ [job] })

/-- Embeds the `InferenceResponse` pydantic model (models/requests.py 17-26);
the `failure` dict is represented by its `code` and `transient` entries. -/
structure InferenceResponse where
  success : Bool
  response : Option String := none
  error : Option String := none
  error_code : Option String := none
  failure_code : Option String := none
  failure_transient : Option Bool := none
  provider_used : String := ""
  inference_time : ℚ := 0
  cost_estimate : ℚ := 0
deriving DecidableEq

/-- The outcome of the worker's call `await inference_func(...)`
(region_queue.py 138-144): either the call raises, or it returns an
`InferenceResponse` (whose `success` field the worker never inspects). -/
inductive InfOutcome
  | raises (msg : String)
  | returns (resp : InferenceResponse)
deriving DecidableEq

/-- Which of the three lanes the worker dequeued from
(region_queue.py 118-128). -/
inductive Lane
  | global_retry
  | region_retry
  | regular
deriving DecidableEq

/-- Observable result of one worker-loop iteration: the new manager state,
the lane used, the job as dequeued, the job after the iteration's mutations,
and the backoff sleep performed, if any. -/
structure StepResult where
  state : RegionQueueManager
  lane : Lane
  dequeued : QueuedJob
  job : QueuedJob
  sleep : Option Nat
deriving DecidableEq

/-- Embeds the body of one `process_queue` iteration after a job has been
dequeued (region_queue.py 130-172): stamp `started_at`, run the inference
call; on return count the job completed; on exception increment
`retry_count` and either back off `min(2**retry_count, 60)` seconds and push
to the global retry queue, or, with retries exhausted, stamp `completed_at`
and increment the worker's `failed_count`.  The `finally` block resets
`processing` and `current_job`. -/
def handle_job (mgr : RegionQueueManager) (r : RegionKey) (lane : Lane)
    (job0 : QueuedJob) (outcome : InfOutcome) (now : Nat) : StepResult :=
  let job1 := { job0 with started_at := some now }
  match outcome with
  | .returns _ =>
      let job2 := { job1 with completed_at := some now }
      { state := mgr.setQueue r
          { mgr.getQueue r with
            completed_count := (mgr.getQueue r).completed_count + 1
            processing := false, current_job := none }
        lane := lane, dequeued := job0, job := job2, sleep := none }
  | .raises msg =>
      let job2 := { job1 with last_error := some msg, retry_count := job1.retry_count + 1 }
      if job2.retry_count < job2.max_retries then
        let mgr1 := mgr.setQueue r
          { mgr.getQueue r with processing := false, current_job := none }
        { state := { mgr1 with global_retry_queue := mgr1.global_retry_queue ++ [job2] }
          lane := lane, dequeued := job0, job := job2
          sleep := some (min (2 ^ job2.retry_count) 60) }
      else
        let job3 := { job2 with completed_at := some now }
        { state := mgr.setQueue r
            { mgr.getQueue r with
              failed_count := (mgr.getQueue r).failed_count + 1
              processing := false, current_job := none }
          lane := lane, dequeued := job0, job := job3, sleep := none }

/-- Embeds the dequeue priority of one `process_queue` iteration
(region_queue.py 116-128): global retry queue first, then the region's
retry queue, then its regular queue; `none` when all three are empty (the
worker would block awaiting work).  Returns the job, the manager state
after removing it, and the lane it came from. -/
def dequeue_priority (mgr : RegionQueueManager) (r : RegionKey) :
    Option (QueuedJob × RegionQueueManager × Lane) :=
  match mgr.global_retry_queue with
  | j :: rest => some (j, { mgr with global_retry_queue := rest }, .global_retry)
  | [] =>
      match (mgr.getQueue r).retry_queue with
      | j :: rest =>
          some (j, mgr.setQueue r { mgr.getQueue r with retry_queue := rest }, .region_retry)
      | [] =>
          match (mgr.getQueue r).queue with
          | j :: rest =>
              some (j, mgr.setQueue r { mgr.getQueue r with queue := rest }, .regular)
          | [] => none

/-- One iteration of the `while True` worker loop of `process_queue`
(region_queue.py 116-172), given the outcome of the inference call. -/
def process_queue_step (mgr : RegionQueueManager) (r : RegionKey)
    (outcome : InfOutcome) (now : Nat) : Option StepResult :=
  match dequeue_priority mgr r with
  | some (j, mgr1, lane) => some (handle_job mgr1 r lane j outcome now)
  | none => none

@[simp]
theorem getQueue_setQueue (mgr : RegionQueueManager) (k k' : RegionKey)
    (q : RegionQueueState) :
    (mgr.setQueue k q).getQueue k' = if k' = k then q else mgr.getQueue k' := by
  cases k <;> cases k' <;>
    simp [RegionQueueManager.getQueue, RegionQueueManager.setQueue]

@[simp]
theorem global_setQueue (mgr : RegionQueueManager) (k : RegionKey)
    (q : RegionQueueState) :
    (mgr.setQueue k q).global_retry_queue = mgr.global_retry_queue := by
  cases k <;> simp [RegionQueueManager.setQueue]

@[simp]
theorem getQueue_set_global (mgr : RegionQueueManager) (k : RegionKey)
    (g : List QueuedJob) :
    RegionQueueManager.getQueue { mgr with global_retry_queue := g } k
      = mgr.getQueue k := by
  cases k <;> simp [RegionQueueManager.getQueue]

/-- Dequeuing never grows any queue, and never touches the counters. -/
theorem dequeue_priority_spec (mgr : RegionQueueManager) (r : RegionKey)
    (j : QueuedJob) (mgr1 : RegionQueueManager) (lane : Lane)
    (h : dequeue_priority mgr r = some (j, mgr1, lane)) :
    mgr1.global_retry_queue.length ≤ mgr.global_retry_queue.length ∧
    (∀ k, (mgr1.getQueue k).retry_queue.length ≤ (mgr.getQueue k).retry_queue.length) ∧
    (∀ k, (mgr1.getQueue k).queue.length ≤ (mgr.getQueue k).queue.length) ∧
    (∀ k, (mgr1.getQueue k).failed_count = (mgr.getQueue k).failed_count) ∧
    (∀ k, (mgr1.getQueue k).completed_count = (mgr.getQueue k).completed_count) := by
  unfold dequeue_priority at h
  cases hg : mgr.global_retry_queue with
  | cons j' rest =>
      rw [hg] at h
      simp only [Option.some.injEq, Prod.mk.injEq] at h
      obtain ⟨-, hmgr, -⟩ := h
      subst hmgr
      refine ⟨by simp [Nat.le_succ], ?_, ?_, ?_, ?_⟩ <;>
        intro k <;> simp
  | nil =>
      rw [hg] at h
      cases hrq : (mgr.getQueue r).retry_queue with
      | cons j' rest =>
          rw [hrq] at h
          simp only [Option.some.injEq, Prod.mk.injEq] at h
          obtain ⟨-, hmgr, -⟩ := h
          subst hmgr
          refine ⟨by simp [hg], ?_, ?_, ?_, ?_⟩ <;> intro k <;>
            by_cases hk : k = r <;> simp [hk, hrq]
      | nil =>
          rw [hrq] at h
          cases hq : (mgr.getQueue r).queue with
          | cons j' rest =>
              rw [hq] at h
              simp only [Option.some.injEq, Prod.mk.injEq] at h
              obtain ⟨-, hmgr, -⟩ := h
              subst hmgr
              refine ⟨by simp [hg], ?_, ?_, ?_, ?_⟩ <;> intro k <;>
                by_cases hk : k = r <;> simp [hk, hq]
          | nil =>
              rw [hq] at h
              simp at h

/-- Iterate worker steps for one region, feeding one outcome per processed
job; stops when no lane has work. Returns the final state and the number of
jobs processed (= inference attempts made). -/
def run_steps (mgr : RegionQueueManager) (r : RegionKey)
    (outcomes : List InfOutcome) (now : Nat) : RegionQueueManager × Nat :=
  match outcomes with
  | [] => (mgr, 0)
  | o :: os =>
      match process_queue_step mgr r o now with
      | none => (mgr, 0)
      | some res =>
          let rec_result := run_steps res.state r os (now + 1)
          (rec_result.1, rec_result.2 + 1)

/-- `handle_job` reports the lane and the dequeued job unchanged, whatever
the outcome. -/
theorem handle_job_lane_dequeued (mgr1 : RegionQueueManager) (r : RegionKey)
    (lane : Lane) (j : QueuedJob) (outcome : InfOutcome) (now : Nat) :
    (handle_job mgr1 r lane j outcome now).lane = lane ∧
    (handle_job mgr1 r lane j outcome now).dequeued = j := by
  cases outcome with
  | returns resp => exact ⟨rfl, rfl⟩
  | raises msg =>
      simp only [handle_job]
      split <;> exact ⟨rfl, rfl⟩

/-! ## Worker handling of returned results (claim C2) -/

/-- C2 amended: when the inference call returns (rather than raises), the
worker counts the job as completed — incrementing `completed_count` — and
performs no retry: no backoff sleep, no retry-queue growth, `retry_count`
untouched, `failed_count` untouched.  This holds for every returned
response, including those with `success == false`: region_queue.py 136-150
never inspects the result. -/
theorem c2_returned_failure_not_retried_amended (mgr : RegionQueueManager)
    (r : RegionKey) (resp : InferenceResponse) (now : Nat) (res : StepResult)
    (h : process_queue_step mgr r (.returns resp) now = some res) :
    (res.state.getQueue r).completed_count = (mgr.getQueue r).completed_count + 1 ∧
    res.sleep = none ∧
    res.job.retry_count = res.dequeued.retry_count ∧
    res.job.completed_at = some now ∧
    res.state.global_retry_queue.length ≤ mgr.global_retry_queue.length ∧
    (∀ k, (res.state.getQueue k).retry_queue.length
      ≤ (mgr.getQueue k).retry_queue.length) ∧
    (∀ k, (res.state.getQueue k).failed_count = (mgr.getQueue k).failed_count) := by
  unfold process_queue_step at h
  cases hdq : dequeue_priority mgr r with
  | none => rw [hdq] at h; exact absurd h (by simp)
  | some x =>
      obtain ⟨j, mgr1, lane⟩ := x
      rw [hdq] at h
      simp only [Option.some.injEq] at h
      subst h
      obtain ⟨hg, hrq, hq, hfc, hcc⟩ := dequeue_priority_spec mgr r j mgr1 lane hdq
      refine ⟨?_, rfl, rfl, rfl, ?_, ?_, ?_⟩
      · simp [handle_job, hcc r]
      · simpa [handle_job] using hg
      · intro k
        by_cases hk : k = r
        · subst hk; simpa [handle_job] using hrq k
        · simpa [handle_job, hk] using hrq k
      · intro k
        by_cases hk : k = r
        · subst hk; simpa [handle_job] using hfc k
        · simpa [handle_job, hk] using hfc k

/-- A fresh job admitted to the US queue. -/
def jobUS : QueuedJob :=
  { job_id := "inference-aaaa", model := "llama3.2-1b", prompt := "p", region := "US" }

/-- Manager state with exactly one queued job, in the US regular queue. -/
def mgrOneJob : RegionQueueManager :=
  { us := { region := "US", queue := [jobUS] } }

/-- An execution result that reports failure without raising, as
`run_inference` produces for every failed inference (router.py 300-384
catches all exceptions and returns `success=False`). -/
def failedResp : InferenceResponse :=
  { success := false, error := some "execution failed"
    error_code := some "PROVIDER_EXECUTION_FAILED" }

/-- C2 counterexample: a returned `success == false` result is counted as a
completed job (`completed_count = 1`), the job is not re-queued anywhere and
its `retry_count` stays 0 — the worker does not treat it as a failure. -/
theorem c2_returned_failure_not_retried_counterexample :
    failedResp.success = false ∧
    ∃ res, process_queue_step mgrOneJob .US (.returns failedResp) 7 = some res ∧
      res.state.us.completed_count = 1 ∧
      res.state.us.failed_count = 0 ∧
      res.job.retry_count = 0 ∧
      res.sleep = none ∧
      res.state.global_retry_queue = [] ∧
      res.state.us.retry_queue = [] ∧
      res.state.us.queue = [] := by
  exact ⟨rfl, _, rfl, rfl, rfl, rfl, rfl, rfl, rfl, rfl⟩

/-- A successful execution result. -/
def okResp : InferenceResponse := { success := true, response := some "hello" }

/-- Witness for the C2 amended theorem at a concrete input. -/
theorem c2_returned_failure_not_retried_witness :
    ∃ res, process_queue_step mgrOneJob .US (.returns okResp) 3 = some res ∧
      (res.state.getQueue .US).completed_count
        = (mgrOneJob.getQueue .US).completed_count + 1 ∧
      res.sleep = none := by
  refine ⟨_, rfl, ?_, ?_⟩
  · exact (c2_returned_failure_not_retried_amended mgrOneJob .US okResp 3 _ rfl).1
  · exact (c2_returned_failure_not_retried_amended mgrOneJob .US okResp 3 _ rfl).2.1

/-! ## Dequeue priority (claim C8) -/

/-- C8: whenever the worker checks for work, a non-empty global retry queue
is served first, regardless of the regional queues; the regional retry queue
is consulted only when the global queue is empty, and the regular queue only
when both retry lanes are empty (region_queue.py 116-128). -/
theorem c8_global_retry_preempts (mgr : RegionQueueManager) (r : RegionKey)
    (outcome : InfOutcome) (now : Nat) (j : QueuedJob) (tl : List QueuedJob) :
    (mgr.global_retry_queue = j :: tl →
      ∃ res, process_queue_step mgr r outcome now = some res ∧
        res.lane = .global_retry ∧ res.dequeued = j) ∧
    (mgr.global_retry_queue = [] → (mgr.getQueue r).retry_queue = j :: tl →
      ∃ res, process_queue_step mgr r outcome now = some res ∧
        res.lane = .region_retry ∧ res.dequeued = j) ∧
    (mgr.global_retry_queue = [] → (mgr.getQueue r).retry_queue = [] →
      (mgr.getQueue r).queue = j :: tl →
      ∃ res, process_queue_step mgr r outcome now = some res ∧
        res.lane = .regular ∧ res.dequeued = j) := by
  refine ⟨?_, ?_, ?_⟩
  · intro hg
    have hdq : dequeue_priority mgr r
        = some (j, { mgr with global_retry_queue := tl }, .global_retry) := by
      unfold dequeue_priority
      rw [hg]
    exact ⟨_, by rw [process_queue_step, hdq],
      (handle_job_lane_dequeued _ _ _ _ _ _).1, (handle_job_lane_dequeued _ _ _ _ _ _).2⟩
  · intro hg hrq
    have hdq : dequeue_priority mgr r
        = some (j, mgr.setQueue r { mgr.getQueue r with retry_queue := tl },
            .region_retry) := by
      unfold dequeue_priority
      rw [hg, hrq]
    exact ⟨_, by rw [process_queue_step, hdq],
      (handle_job_lane_dequeued _ _ _ _ _ _).1, (handle_job_lane_dequeued _ _ _ _ _ _).2⟩
  · intro hg hrq hq
    have hdq : dequeue_priority mgr r
        = some (j, mgr.setQueue r { mgr.getQueue r with queue := tl }, .regular) := by
      unfold dequeue_priority
      rw [hg, hrq, hq]
    exact ⟨_, by rw [process_queue_step, hdq],
      (handle_job_lane_dequeued _ _ _ _ _ _).1, (handle_job_lane_dequeued _ _ _ _ _ _).2⟩

/-- A retried job sitting in the global retry lane. -/
def jobGlobal : QueuedJob :=
  { job_id := "inference-glob", model := "m", prompt := "p", region := "EU"
    retry_count := 1 }

/-- A manager state where the global retry lane, the US retry lane and the
US regular queue are all non-empty. -/
def mgrAllLanes : RegionQueueManager :=
  { us := { region := "US", queue := [jobUS]
            retry_queue := [{ jobUS with job_id := "inference-rty" }] }
    global_retry_queue := [jobGlobal] }

/-- Witness for C8 at a concrete input: with all three lanes non-empty, the
US worker's next job comes from the global retry queue. -/
theorem c8_global_retry_preempts_witness :
    ∃ res, process_queue_step mgrAllLanes .US (.returns okResp) 1 = some res ∧
      res.lane = .global_retry ∧ res.dequeued = jobGlobal := by
  exact (c8_global_retry_preempts mgrAllLanes .US (.returns okResp) 1 jobGlobal []).1 rfl

/-! ## Retry escalation (claim C7) -/

/-- A fresh job admitted to the EU queue, as in the spec's queue lifecycle
scenario. -/
def jobEU : QueuedJob :=
  { job_id := "inference-bbbb", model := "llama3.2-1b", prompt := "p", region := "EU" }

/-- Manager state holding only `jobEU` in the EU regular queue. -/
def mgrRetryScene : RegionQueueManager :=
  { eu := { region := "EU", queue := [jobEU] } }

/-- C7: when the execution raises, the worker increments `retry_count`;
below `max_retries` it sleeps `min(2^retry_count, 60)` seconds and appends
the job to the global retry queue — never a regional retry queue — leaving
all counters alone; at `max_retries` it stamps `completed_at`, increments
the worker's `failed_count` by exactly one and requeues nothing.  An
always-failing job is attempted exactly 3 times in total
(region_queue.py 152-172). -/
theorem c7_retry_escalation :
    (∀ (mgr : RegionQueueManager) (r : RegionKey) (now : Nat) (msg : String)
        (res : StepResult),
      process_queue_step mgr r (.raises msg) now = some res →
        res.job.retry_count = res.dequeued.retry_count + 1 ∧
        res.job.max_retries = res.dequeued.max_retries ∧
        res.job.last_error = some msg ∧
        (res.job.retry_count < res.job.max_retries →
          res.sleep = some (min (2 ^ res.job.retry_count) 60) ∧
          res.state.global_retry_queue.getLast? = some res.job ∧
          (∀ k, (res.state.getQueue k).retry_queue.length
            ≤ (mgr.getQueue k).retry_queue.length) ∧
          (∀ k, (res.state.getQueue k).failed_count = (mgr.getQueue k).failed_count ∧
            (res.state.getQueue k).completed_count = (mgr.getQueue k).completed_count)) ∧
        (res.job.max_retries ≤ res.job.retry_count →
          res.job.completed_at = some now ∧
          res.sleep = none ∧
          (res.state.getQueue r).failed_count = (mgr.getQueue r).failed_count + 1 ∧
          (∀ k, k ≠ r →
            (res.state.getQueue k).failed_count = (mgr.getQueue k).failed_count) ∧
          res.state.global_retry_queue.length ≤ mgr.global_retry_queue.length ∧
          (∀ k, (res.state.getQueue k).retry_queue.length
              ≤ (mgr.getQueue k).retry_queue.length ∧
            (res.state.getQueue k).queue.length ≤ (mgr.getQueue k).queue.length))) ∧
    (run_steps mgrRetryScene .EU
      [.raises "boom", .raises "boom", .raises "boom", .raises "boom"] 0).2 = 3 ∧
    (run_steps mgrRetryScene .EU
      [.raises "boom", .raises "boom", .raises "boom", .raises "boom"] 0).1.eu.failed_count = 1 ∧
    (run_steps mgrRetryScene .EU
      [.raises "boom", .raises "boom", .raises "boom", .raises "boom"] 0).1.eu.completed_count = 0 ∧
    (run_steps mgrRetryScene .EU
      [.raises "boom", .raises "boom", .raises "boom", .raises "boom"] 0).1.global_retry_queue = [] ∧
    (run_steps mgrRetryScene .EU
      [.raises "boom", .raises "boom", .raises "boom", .raises "boom"] 0).1.eu.queue = [] ∧
    (run_steps mgrRetryScene .EU
      [.raises "boom", .raises "boom", .raises "boom", .raises "boom"] 0).1.eu.retry_queue = [] := by
  refine ⟨?_, by decide, by decide, by decide, by decide, by decide, by decide⟩
  intro mgr r now msg res h
  unfold process_queue_step at h
  cases hdq : dequeue_priority mgr r with
  | none => rw [hdq] at h; exact absurd h (by simp)
  | some x =>
      obtain ⟨j, mgr1, lane⟩ := x
      rw [hdq] at h
      simp only [Option.some.injEq] at h
      subst h
      obtain ⟨hg, hrq, hq, hfc, hcc⟩ := dequeue_priority_spec mgr r j mgr1 lane hdq
      simp only [handle_job]
      split
      · rename_i hlt
        refine ⟨rfl, rfl, rfl, ?_, ?_⟩
        · intro _
          refine ⟨rfl, ?_, ?_, ?_⟩
          · simp [List.getLast?_concat]
          · intro k
            by_cases hk : k = r
            · subst hk; simpa using hrq k
            · simpa [hk] using hrq k
          · intro k
            by_cases hk : k = r
            · subst hk; simp [hfc k, hcc k]
            · simp [hk, hfc k, hcc k]
        · intro hge
          exfalso
          simp only at hge hlt
          omega
      · rename_i hge
        refine ⟨rfl, rfl, rfl, ?_, ?_⟩
        · intro hlt
          exfalso
          simp only at hge hlt
          omega
        · intro _
          refine ⟨rfl, rfl, ?_, ?_, ?_, ?_⟩
          · simp [hfc r]
          · intro k hk
            simp [hk, hfc k]
          · simpa using hg
          · intro k
            by_cases hk : k = r
            · subst hk; simp [hrq k, hq k]
            · simp [hk, hrq k, hq k]

/-- Witness for the universally quantified part of C7 at a concrete input:
the first failing attempt of `jobEU` increments its retry count to 1 and
backs off `min(2^1, 60) = 2` seconds. -/
theorem c7_retry_escalation_witness :
    ∃ res, process_queue_step mgrRetryScene .EU (.raises "boom") 0 = some res ∧
      res.job.retry_count = res.dequeued.retry_count + 1 := by
  refine ⟨_, rfl, ?_⟩
  exact (c7_retry_escalation.1 mgrRetryScene .EU 0 "boom" _ rfl).1

/-! ## Queued admission (claim C4, api/inference.py 115-162) -/

/-- Embeds `region = inference_request.region_preference or "US"`
(api/inference.py 136): Python `or` falls through to `"US"` for both `None`
and the falsy empty string. -/
def inference_queued_region (region_preference : Option String) : String :=
  match region_preference with
  | none => "US"
  | some s => if s = "" then "US" else s

/-- Embeds the queued-admission path of `inference_queued`
(api/inference.py 134-148): build a `QueuedJob` carrying the request's
region preference verbatim (defaulted to `"US"`), then `enqueue_job` it —
which raises `ValueError` for unknown regions. -/
def inference_queued (mgr : RegionQueueManager) (request : InferenceRequest)
    (job_id : String) : Except String (RegionQueueManager × QueuedJob) :=
  match enqueue_job mgr
      { job_id := job_id, model := request.model, prompt := request.prompt
        temperature := request.temperature, max_tokens := request.max_tokens
        region := inference_queued_region request.region_preference } with
  | .error e => .error e
  | .ok m =>
      .ok (m, { job_id := job_id, model := request.model, prompt := request.prompt
                temperature := request.temperature, max_tokens := request.max_tokens
                region := inference_queued_region request.region_preference })

theorem regionKeyOf_eq_none (s : String) :
    regionKeyOf s = none ↔ (s ≠ "US" ∧ s ≠ "EU" ∧ s ≠ "ASIA") := by
  unfold regionKeyOf
  split_ifs <;> simp_all

/-- C4 counterexample: the lowercase region preference `"us"` is not exactly
`"US"`, `"EU"` or `"ASIA"`, yet the request is admitted, because
`enqueue_job` upper-cases the job's region before the membership test. -/
theorem c4_region_admission_counterexample :
    (some "us" : Option String) ≠ none ∧
    ("us" ≠ "US" ∧ "us" ≠ "EU" ∧ "us" ≠ "ASIA") ∧
    (inference_queued {}
      { model := "m", prompt := "p", region_preference := some "us" }
      "inference-cccc").toOption.isSome = true := by
  exact ⟨by decide, by decide, by decide⟩

/-- C4 amended: `enqueue_job` raises `ValueError` exactly when the job's
upper-cased region is none of `"US"`, `"EU"`, `"ASIA"`; queued admission
passes the request's `region_preference` verbatim, so any value that does
not upper-case to a queue key (e.g. registry-style `"eu-west"`) fails
admission; a request is enqueued iff its preference is unset or empty
(defaulted to `"US"`) or upper-cases to exactly `"US"`, `"EU"` or `"ASIA"`. -/
theorem c4_region_admission_amended :
    (∀ (mgr : RegionQueueManager) (job : QueuedJob),
      (∃ e, enqueue_job mgr job = .error e) ↔
        ((pyUpper job.region) ≠ "US" ∧ (pyUpper job.region) ≠ "EU" ∧
         (pyUpper job.region) ≠ "ASIA")) ∧
    (∀ (mgr : RegionQueueManager) (request : InferenceRequest) (job_id : String)
        (r : String),
      request.region_preference = some r → r ≠ "" →
      pyUpper r ≠ "US" → pyUpper r ≠ "EU" → pyUpper r ≠ "ASIA" →
      ∃ e, inference_queued mgr request job_id = .error e) ∧
    (∀ (mgr : RegionQueueManager) (request : InferenceRequest) (job_id : String),
      (∃ m, inference_queued mgr request job_id = .ok m) ↔
        (request.region_preference = none ∨ request.region_preference = some "" ∨
         ∃ s, request.region_preference = some s ∧
           (pyUpper s = "US" ∨ pyUpper s = "EU" ∨ pyUpper s = "ASIA"))) := by
  have henq : ∀ (mgr : RegionQueueManager) (job : QueuedJob),
      (∃ e, enqueue_job mgr job = .error e) ↔
        ((pyUpper job.region) ≠ "US" ∧ (pyUpper job.region) ≠ "EU" ∧
         (pyUpper job.region) ≠ "ASIA") := by
    intro mgr job
    unfold enqueue_job
    cases hk : regionKeyOf (pyUpper job.region) with
    | none =>
        simp only []
        constructor
        · intro _
          exact (regionKeyOf_eq_none _).mp hk
        · intro _
          exact ⟨_, rfl⟩
    | some k =>
        simp only []
        constructor
        · rintro ⟨e, he⟩
          cases he
        · intro hcon
          exact absurd hk (by simp [(regionKeyOf_eq_none _).mpr hcon])
  refine ⟨henq, ?_, ?_⟩
  · intro mgr request job_id r hr hne hu1 hu2 hu3
    unfold inference_queued
    have hreg : inference_queued_region request.region_preference = r := by
      simp [inference_queued_region, hr, hne]
    obtain ⟨e, he⟩ := (henq mgr
      { job_id := job_id, model := request.model, prompt := request.prompt
        temperature := request.temperature, max_tokens := request.max_tokens
        region := inference_queued_region request.region_preference }).mpr
      (by simpa [hreg] using ⟨hu1, hu2, hu3⟩)
    rw [he]
    exact ⟨e, rfl⟩
  · intro mgr request job_id
    unfold inference_queued
    cases henqr : enqueue_job mgr
        { job_id := job_id, model := request.model, prompt := request.prompt
          temperature := request.temperature, max_tokens := request.max_tokens
          region := inference_queued_region request.region_preference } with
    | error e =>
        simp only []
        have hbad : pyUpper (inference_queued_region request.region_preference) ≠ "US" ∧
            pyUpper (inference_queued_region request.region_preference) ≠ "EU" ∧
            pyUpper (inference_queued_region request.region_preference) ≠ "ASIA" :=
          (henq mgr _).mp ⟨e, henqr⟩
        constructor
        · rintro ⟨m, hm⟩
          cases hm
        · intro hrp
          exfalso
          rcases hrp with hnone | hempty | ⟨s, hs, hup⟩
          · have hus : inference_queued_region request.region_preference = "US" := by
              rw [hnone]
              rfl
            rw [hus] at hbad
            exact hbad.1 (by decide)
          · have hus : inference_queued_region request.region_preference = "US" := by
              rw [hempty]
              rfl
            rw [hus] at hbad
            exact hbad.1 (by decide)
          · by_cases hse : s = ""
            · subst hse
              have hus : inference_queued_region request.region_preference = "US" := by
                rw [hs]
                rfl
              rw [hus] at hbad
              exact hbad.1 (by decide)
            · have hself : inference_queued_region request.region_preference = s := by
                simp [inference_queued_region, hs, hse]
              rw [hself] at hbad
              rcases hup with h | h | h
              · exact hbad.1 h
              · exact hbad.2.1 h
              · exact hbad.2.2 h
    | ok m =>
        simp only []
        constructor
        · intro _
          have hok : ¬ (∃ e, enqueue_job mgr
              { job_id := job_id, model := request.model, prompt := request.prompt
                temperature := request.temperature, max_tokens := request.max_tokens
                region := inference_queued_region request.region_preference }
                = .error e) := by
            rintro ⟨e, he⟩
            rw [henqr] at he
            cases he
          have hgood0 := (henq mgr _).not.mp hok
          have hgood : ¬ (pyUpper (inference_queued_region request.region_preference) ≠ "US" ∧
              pyUpper (inference_queued_region request.region_preference) ≠ "EU" ∧
              pyUpper (inference_queued_region request.region_preference) ≠ "ASIA") := hgood0
          push_neg at hgood
          cases hrp : request.region_preference with
          | none => exact Or.inl rfl
          | some s =>
              by_cases hse : s = ""
              · exact Or.inr (Or.inl (by rw [hse]))
              · refine Or.inr (Or.inr ⟨s, rfl, ?_⟩)
                have hregs : inference_queued_region request.region_preference = s := by
                  simp [inference_queued_region, hrp, hse]
                rw [hregs] at hgood
                by_cases h1 : pyUpper s = "US"
                · exact Or.inl h1
                · by_cases h2 : pyUpper s = "EU"
                  · exact Or.inr (Or.inl h2)
                  · exact Or.inr (Or.inr (hgood h1 h2))
        · intro _
          exact ⟨_, rfl⟩

/-- Witness for the C4 amended theorem at a concrete input: the registry
region `"eu-west"` upper-cases to `"EU-WEST"`, which is not a queue key, so
admission fails with `ValueError`. -/
theorem c4_region_admission_witness :
    ∃ e, inference_queued {}
      { model := "m", prompt := "p", region_preference := some "eu-west" }
      "inference-dddd" = .error e := by
  exact c4_region_admission_amended.2.1 {} _ "inference-dddd" "eu-west" rfl
    (by decide) (by decide) (by decide) (by decide)

/-! ## Modal execution engine (`HybridRouter._run_modal_inference`,
router.py 419-753) -/

/-- The HTTP client is created with `follow_redirects=False`
(router.py 37-40), so redirects are never auto-followed. -/
def client_follow_redirects : Bool := false

/-- Observable content of a Modal HTTP response body, as
`_run_modal_inference` inspects it: whether `response.json()` parses,
whether the parsed value is a dict, the dict entries the code reads
(`status`, `success`, `response`/`output`/`text`, `error`, the nested
`failure` dict's `code`), the raw text, and whether the raw text contains
the stopped-app marker `"app for invoked web endpoint is stopped"`
(router.py 497). `none` models an absent key or a JSON `null`. -/
structure ModalBody where
  isJson : Bool := true
  isDict : Bool := true
  status : Option String := none
  success : Option Bool := none
  response : Option String := none
  output : Option String := none
  text : Option String := none
  error : Option String := none
  failure_code : Option String := none
  raw : String := ""
  stoppedAppMarker : Bool := false
deriving DecidableEq

/-- One HTTP response: status code, `Location` header, body. -/
structure HttpResp where
  status : Nat
  location : Option String := none
  body : ModalBody
deriving DecidableEq

/-- The outcome of one `self.client.post(...)` call inside the attempt loop
(router.py 463-467): a response, or one of the caught exception classes
(`httpx.TimeoutException`, `httpx.RequestError`, generic `Exception`). -/
inductive ModalAttempt
  | resp (r : HttpResp)
  | timeoutExc (msg : String)
  | requestErr (msg : String)
  | otherExc (msg : String)
deriving DecidableEq

/-- The container-failure message recorded when Modal answers 303
(router.py 493). -/
def container_failure_msg (loc : Option String) : String :=
  "Modal container failure (303 redirect to " ++ loc.getD "unknown" ++ ")"

/-- Mutable state of the attempt loop: the last response object, the last
recorded error, the backoff sleeps performed, and the number of HTTP calls
issued. -/
structure ModalLoopState where
  response : Option HttpResp := none
  last_error : Option String := none
  sleeps : List Nat := []
  calls : Nat := 0
deriving DecidableEq

/-- Embeds the `for attempt in range(3)` loop of `_run_modal_inference`
(router.py 456-560).  `env k` is the outcome of the `k`-th HTTP call.  A 303
response breaks immediately (recording a container-failure message in
`last_error`, router.py 480-494); a 404 whose body carries the stopped-app
marker sleeps `2*(attempt+1)` seconds and retries (router.py 497-503); any
other response breaks; caught exceptions retry with the same backoff while
`attempt < 2` (router.py 508-560). -/
def modal_attempt_loop (env : Nat → ModalAttempt) : Nat → Nat → ModalLoopState →
    ModalLoopState
  | 0, _, st => st
  | fuel + 1, attempt, st =>
      match env attempt with
      | .resp r =>
          let st1 := { st with response := some r, calls := st.calls + 1 }
          if r.status == 303 then
            { st1 with last_error := some (container_failure_msg r.location) }
          else if r.status == 404 && r.body.stoppedAppMarker then
            modal_attempt_loop env fuel (attempt + 1)
              { st1 with sleeps := st1.sleeps ++ [2 * (attempt + 1)] }
          else st1
      | .timeoutExc msg | .requestErr msg | .otherExc msg =>
          let st1 := { st with last_error := some msg, calls := st.calls + 1 }
          if attempt < 2 then
            modal_attempt_loop env fuel (attempt + 1)
              { st1 with sleeps := st1.sleeps ++ [2 * (attempt + 1)] }
          else st1

/-- Python truthiness of an optional string. -/
def pyTruthyStr : Option String → Bool
  | some s => s ≠ ""
  | none => false

/-- Python `a or b` on optional strings. -/
def pyOrStr (a b : Option String) : Option String :=
  if pyTruthyStr a then a else b

/-- Embeds `resp_text = data.get("response") or data.get("output") or
data.get("text")` followed by `if resp_text is None: resp_text = ""`
(router.py 634-641): the first non-empty string wins, everything-falsy
normalizes to the empty string. -/
def extract_resp_text (b : ModalBody) : String :=
  (pyOrStr b.response (pyOrStr b.output b.text)).getD ""

/-- Embeds router.py 628-631: `success = data.get("success")`, falling back
to comparing `str(status).lower()` with `"success"` when `success` is absent
but `status` is present. -/
def computed_success (b : ModalBody) : Option Bool :=
  match b.success with
  | some v => some v
  | none =>
      match b.status with
      | some st => some (String.mk (st.data.map Char.toLower) == "success")
      | none => none

/-- Python truthiness of the `success` value (`if not success:`). -/
def pyTruthyBool : Option Bool → Bool
  | some v => v
  | none => false

/-- Result of `_run_modal_inference` as the caller observes it, plus the
loop's observable effects (calls made, sleeps performed). -/
structure ModalResult where
  success : Bool
  response : Option String := none
  error : Option String := none
  error_code : Option String := none
  transient : Option Bool := none
  http_status : Option Nat := none
  calls : Nat := 0
  sleeps : List Nat := []
deriving DecidableEq

/-- Embeds `_run_modal_inference` after the attempt loop
(router.py 562-753): no response at all becomes `MODAL_REQUEST_FAILED`
(transient); an unparseable body becomes `MODAL_RESPONSE_PARSE_ERROR`
(non-transient); a 200 dict body is interpreted through
`computed_success`/`extract_resp_text`, empty response text included, as a
success (router.py 626-691) or a `PROVIDER_EXECUTION_FAILED`-class failure;
anything else becomes `PROVIDER_HTTP_<status>` with
`transient = status >= 500` (router.py 693-753). -/
def run_modal_inference (env : Nat → ModalAttempt) : ModalResult :=
  let st := modal_attempt_loop env 3 0 {}
  match st.response with
  | none =>
      { success := false
        error := some ("Failed to get response from Modal after 3 attempts: "
          ++ st.last_error.getD "None")
        error_code := some "MODAL_REQUEST_FAILED", transient := some true
        calls := st.calls, sleeps := st.sleeps }
  | some r =>
      if ¬ r.body.isJson then
        { success := false
          error := some "Could not parse Modal response as JSON"
          error_code := some "MODAL_RESPONSE_PARSE_ERROR", transient := some false
          http_status := some r.status, calls := st.calls, sleeps := st.sleeps }
      else if r.status == 200 && r.body.isDict then
        if ¬ pyTruthyBool (computed_success r.body) then
          { success := false, error := r.body.error
            error_code := some (r.body.failure_code.getD "PROVIDER_EXECUTION_FAILED")
            transient := some true, calls := st.calls, sleeps := st.sleeps }
        else
          { success := true, response := some (extract_resp_text r.body)
            error := r.body.error, calls := st.calls, sleeps := st.sleeps }
      else if r.body.isDict && r.status == 200 then
        { success := false, error := some (r.body.error.getD "Modal execution failed")
          error_code := some "PROVIDER_EXECUTION_FAILED", transient := some true
          calls := st.calls, sleeps := st.sleeps }
      else
        { success := false
          error := some ("HTTP " ++ toString r.status ++ ": " ++ r.body.raw)
          error_code := some ("PROVIDER_HTTP_" ++ toString r.status)
          transient := some (decide (500 ≤ r.status))
          http_status := some r.status, calls := st.calls, sleeps := st.sleeps }

/-- First-step behaviour of the attempt loop on a 303 response: record the
response and the container-failure message, and stop — no retry, no sleep,
no further HTTP call. -/
theorem modal_attempt_loop_resp303 (env : Nat → ModalAttempt) (fuel attempt : Nat)
    (st : ModalLoopState) (r : HttpResp) (h : env attempt = .resp r)
    (h303 : r.status = 303) :
    modal_attempt_loop env (fuel + 1) attempt st =
      { st with
        response := some r, calls := st.calls + 1,
        last_error := some (container_failure_msg r.location) } := by
  unfold modal_attempt_loop
  rw [h]
  simp [h303]

/-- First-step behaviour of the attempt loop on a response that is neither a
303 nor a stopped-app 404: record the response and stop. -/
theorem modal_attempt_loop_resp_break (env : Nat → ModalAttempt) (fuel attempt : Nat)
    (st : ModalLoopState) (r : HttpResp) (h : env attempt = .resp r)
    (h303 : (r.status == 303) = false)
    (h404 : (r.status == 404 && r.body.stoppedAppMarker) = false) :
    modal_attempt_loop env (fuel + 1) attempt st =
      { st with response := some r, calls := st.calls + 1 } := by
  unfold modal_attempt_loop
  rw [h]
  simp [h303, h404]

/-- Full characterization of a Modal execution whose first HTTP call yields
a 303: exactly one call, no sleeps, and the generic failure mapping —
`PROVIDER_HTTP_303` when the body parses as JSON, otherwise
`MODAL_RESPONSE_PARSE_ERROR`.  The container-failure message recorded in
`last_error` is discarded because the response object is non-`None`
(router.py 563). -/
theorem run_modal_inference_303 (env : Nat → ModalAttempt) (loc : Option String)
    (body : ModalBody) (h : env 0 = .resp { status := 303, location := loc, body := body }) :
    run_modal_inference env =
      if body.isJson then
        { success := false
          error := some ("HTTP " ++ toString 303 ++ ": " ++ body.raw)
          error_code := some ("PROVIDER_HTTP_" ++ toString 303)
          transient := some (decide (500 ≤ 303))
          http_status := some 303, calls := 1, sleeps := [] }
      else
        { success := false, error := some "Could not parse Modal response as JSON"
          error_code := some "MODAL_RESPONSE_PARSE_ERROR", transient := some false
          http_status := some 303, calls := 1, sleeps := [] } := by
  have hloop := modal_attempt_loop_resp303 env 2 0 {}
    { status := 303, location := loc, body := body } h rfl
  unfold run_modal_inference
  rw [show (3 : Nat) = 2 + 1 from rfl, hloop]
  by_cases hj : body.isJson
  · simp [hj]
  · simp [hj]

/-- A concrete 303 redirect answer from Modal, JSON-dict body,
with a `Location` header. -/
def env303 : Nat → ModalAttempt :=
  fun _ => .resp { status := 303, location := some "https://modal.invalid/next", body := {} }

/-- C5 counterexample: after a 303 the failure record carries the generic
HTTP code `PROVIDER_HTTP_303` (the claim says such a code never appears);
the attempt is indeed not retried (one call, no backoff). -/
theorem c5_redirect_terminal_counterexample :
    (run_modal_inference env303).error_code = some "PROVIDER_HTTP_303" ∧
    (run_modal_inference env303).calls = 1 ∧
    (run_modal_inference env303).sleeps = [] ∧
    (run_modal_inference env303).transient = some false := by
  decide

/-- C5 amended: a 303 response terminates the attempt loop immediately (one
HTTP call, no backoff, never retried), the redirect `Location` is never
followed (the result is independent of it, and the client is built with
`follow_redirects=False`), but the resulting failure code is the generic
`PROVIDER_HTTP_303` — or `MODAL_RESPONSE_PARSE_ERROR` when the 303 body is
not JSON — not a container-failure class. -/
theorem c5_redirect_terminal_amended (env : Nat → ModalAttempt)
    (loc : Option String) (body : ModalBody)
    (h : env 0 = .resp { status := 303, location := loc, body := body }) :
    (run_modal_inference env).calls = 1 ∧
    (run_modal_inference env).sleeps = [] ∧
    (run_modal_inference env).success = false ∧
    (run_modal_inference env).error_code =
      some (if body.isJson then "PROVIDER_HTTP_303" else "MODAL_RESPONSE_PARSE_ERROR") ∧
    (∀ (env' : Nat → ModalAttempt) (loc' : Option String),
      env' 0 = .resp { status := 303, location := loc', body := body } →
      run_modal_inference env' = run_modal_inference env) ∧
    client_follow_redirects = false := by
  rw [run_modal_inference_303 env loc body h]
  refine ⟨?_, ?_, ?_, ?_, ?_, rfl⟩
  · by_cases hj : body.isJson <;> simp [hj]
  · by_cases hj : body.isJson <;> simp [hj]
  · by_cases hj : body.isJson <;> simp [hj]
  · by_cases hj : body.isJson
    · simp [hj]
      try decide
    · simp [hj]
  · intro env' loc' h'
    rw [run_modal_inference_303 env' loc' body h']

/-- Witness for the C5 amended theorem at the concrete 303 input. -/
theorem c5_redirect_terminal_witness :
    (run_modal_inference env303).calls = 1 ∧
    (run_modal_inference env303).success = false := by
  have := c5_redirect_terminal_amended env303
    (some "https://modal.invalid/next") {} rfl
  exact ⟨this.1, this.2.2.1⟩

/-- A 200 response whose success-shaped dict body has no response text at
all (`response`/`output`/`text` all absent). -/
def env200Empty : Nat → ModalAttempt :=
  fun _ => .resp { status := 200, body := { status := some "success" } }

/-- C6 counterexample: a parsed success-shaped 200 body with empty response
text is returned as a success with `response = ""` — not as an
`EMPTY_MODEL_RESPONSE` failure (router.py 637-641 deliberately allows empty
responses; no `EMPTY_MODEL_RESPONSE` code exists in the router). -/
theorem c6_empty_response_counterexample :
    (run_modal_inference env200Empty).success = true ∧
    (run_modal_inference env200Empty).response = some "" ∧
    (run_modal_inference env200Empty).error_code = none ∧
    extract_resp_text { status := some "success" } = "" := by
  decide

/-- C6 amended: for every 200 response whose body parses as a dict and is
success-shaped (`computed_success` truthy) with empty extracted response
text, the engine returns a success whose `response` is the empty string,
with no error code. -/
theorem c6_empty_response_amended (env : Nat → ModalAttempt)
    (loc : Option String) (body : ModalBody)
    (h : env 0 = .resp { status := 200, location := loc, body := body })
    (hjson : body.isJson = true) (hdict : body.isDict = true)
    (hsucc : pyTruthyBool (computed_success body) = true)
    (hempty : extract_resp_text body = "") :
    (run_modal_inference env).success = true ∧
    (run_modal_inference env).response = some "" ∧
    (run_modal_inference env).error_code = none := by
  have hloop := modal_attempt_loop_resp_break env 2 0 {}
    { status := 200, location := loc, body := body } h rfl rfl
  unfold run_modal_inference
  rw [show (3 : Nat) = 2 + 1 from rfl, hloop]
  simp [hjson, hdict, hsucc, hempty]

/-- Witness for the C6 amended theorem: a success-shaped body whose
`response` field is present but the empty string. -/
theorem c6_empty_response_witness :
    (run_modal_inference (fun _ => .resp
      { status := 200, body := { status := some "success", response := some "" } })).success
        = true ∧
    (run_modal_inference (fun _ => .resp
      { status := 200, body := { status := some "success", response := some "" } })).response
        = some "" := by
  have := c6_empty_response_amended
    (fun _ => .resp { status := 200, body := { status := some "success", response := some "" } })
    none { status := some "success", response := some "" }
    rfl rfl rfl (by decide) (by decide)
  exact ⟨this.1, this.2.1⟩

/-! ## Job status lookup (claim C3, api/inference.py 165-201) -/

/-- The names bound at module scope of `core/region_queue.py`: its imports
and the declarations `logger`, `QueuedJob`, `RegionQueue`,
`RegionQueueManager` and `queue_manager`.  There is no `job_results`. -/
def region_queue_module_names : List String :=
  ["asyncio", "logging", "Dict", "Optional", "Any", "datetime", "dataclass",
   "field", "logger", "QueuedJob", "RegionQueue", "RegionQueueManager",
   "queue_manager"]

/-- Embeds Python `from module import name`: succeeds only when `name` is
bound in the module, else raises `ImportError`. -/
def import_from (moduleNames : List String) (name : String) : Except String Unit :=
  if moduleNames.contains name then .ok ()
  else .error ("ImportError: cannot import name " ++ name)

/-- The shape of the status object `get_inference_status` is documented to
return. -/
structure JobStatusResponse where
  job_id : String
  status : String
deriving DecidableEq

/-- Embeds `get_inference_status` (api/inference.py 165-201): the function
body begins with `from ..core.region_queue import job_results`, so every
call first executes that import.  The remainder of the body (the
`job_results` lookup, the `current_job` scan and the
`queued_or_not_found` fallback) is unreachable, because `job_results` is
not defined in `core/region_queue.py`; it is summarized here by its
fallback response. -/
def get_inference_status (job_id : String) : Except String JobStatusResponse :=
  match import_from region_queue_module_names "job_results" with
  | .error e => .error e
  | .ok _ => .ok { job_id := job_id, status := "queued_or_not_found" }

/-- C3: for every `job_id`, `get_inference_status` raises `ImportError`
instead of returning a status object — `job_results` does not exist in
`core/region_queue.py`. -/
theorem c3_get_job_status_import_error (job_id : String) :
    get_inference_status job_id
      = .error "ImportError: cannot import name job_results" ∧
    region_queue_module_names.contains "job_results" = false := by
  exact ⟨rfl, by decide⟩

end Beacon
